import Mathlib

/-!
# Verification of the tracing core (Context activation, Tracer, SpanBuilder)

Shallow embedding of the repository's tracing API:

* `src/api/trace/tracer.rs` — the `Tracer` trait with its provided (default)
  methods `start`, `build`, `mark_span_as_active`, `get_active_span`,
  `in_span`, `with_span`, and the `SpanBuilder` struct with `from_name`,
  the `with_*` builder methods and `start`.
* `src/api/metrics/sdk_api.rs` — the `SyncInstrument` / `BoundSyncInstrument`
  traits with their provided `record_one` methods.

The `Context` / `ContextGuard` machinery and the SDK tracer implementation
(parent resolution, span construction) are not part of the sources at hand;
they are modelled from the spec (each such definition carries a doc comment
starting `Modelled from the spec:`).

Stateful code is embedded by explicit state passing: the thread-of-control's
"current Context" cell (spec §9: one storage cell per thread of control) is a
component of an explicit `TState`, and every operation that reads or writes it
takes the state and returns the updated state.  The rest of the mutable world
(every span's recorded data and ended/not-ended flag, instrument storage, …)
is an arbitrary type parameter `W`, so that frame properties ("changes
nothing but the context cell") are stated as `W`-preservation for every `W`.
-/

/-- Trace identifier; 128-bit value in the source, all-zero is the invalid
sentinel.  Embedded as `Nat` (identifiers are only compared for equality). -/
abbrev TraceId := Nat

/-- Span identifier; 64-bit value in the source, all-zero is invalid. -/
abbrev SpanId := Nat

/-- Ordered vendor-specific key/value pairs propagated along a trace
(spec §3 `TraceState`: ordered mapping, insertion order preserved). -/
abbrev TraceStateData := List (String × String)

/-- Key/value attribute (`api::KeyValue`); the source is not at hand, the
claims treat attributes as opaque values, so a string pair suffices. -/
structure KeyValue where
  key : String
  value : String
deriving Repr, DecidableEq

/-- Span kind (`api::SpanKind`). -/
inductive SpanKind where
  | client
  | server
  | producer
  | consumer
  | internal
deriving Repr, DecidableEq

/-- Span status code (`api::StatusCode`). -/
inductive StatusCode where
  | ok
  | unset
  | error
deriving Repr, DecidableEq

/-- The externally-identifying immutable part of a span (spec §3):
`{trace_id, span_id, trace_flags (includes the sampled bit), trace_state,
is_remote}`. -/
structure SpanContext where
  trace_id : TraceId
  span_id : SpanId
  trace_flags : Nat
  trace_state : TraceStateData
  is_remote : Bool
deriving Repr, DecidableEq

/-- A `SpanContext` is valid when neither identifier is the all-zero
sentinel (spec §3). -/
def SpanContext.is_valid (sc : SpanContext) : Bool :=
  sc.trace_id ≠ 0 && sc.span_id ≠ 0

/-- Sampling decision: the yes / no / record-only verdict the external
sampler returns (spec §1, §6). -/
inductive SamplingDecision where
  | drop
  | record_only
  | record_and_sample
deriving Repr, DecidableEq

/-- Result of a sampling consultation (spec §6:
`SamplingResult{decision, attributes_to_add, trace_state}`). -/
structure SamplingResult where
  decision : SamplingDecision
  attributes_to_add : List KeyValue
  trace_state : TraceStateData
deriving Repr, DecidableEq

/-- A timestamped message event (`api::Event`). -/
structure Event where
  name : String
  timestamp : Nat
  attributes : List KeyValue
deriving Repr, DecidableEq

/-- A link to another span's `SpanContext` (`api::Link`). -/
structure Link where
  span_context : SpanContext
  attributes : List KeyValue
deriving Repr, DecidableEq

/-- Modelled from the spec: `Context` (`api::context::Context`, not among the
sources at hand) — an immutable snapshot of ambient state holding zero-or-one
active span handle (spec §3).  The restoration back-reference lives in the
`ContextGuard` (spec §9: "attach" swaps the cell and returns the old value
wrapped as a guard), so the snapshot itself is just the active-span slot.
Parametric in the span type `S`, as the Rust `Context` stores any span. -/
structure Context (S : Type) where
  active : Option S
deriving Repr, DecidableEq

/-- Modelled from the spec: the distinguished empty `Context` with no active
span, current before anything was ever activated (spec §3, §4.1). -/
def Context.empty (S : Type) : Context S := ⟨none⟩

/-- Modelled from the spec: `ContextGuard` (not among the sources at hand) —
a scope token holding the `Context` that was current immediately before its
creation (spec §3, §4.1). -/
structure ContextGuard (S : Type) where
  prior : Context S
deriving Repr, DecidableEq

/-- Explicit state of one thread of control: the thread-local "current
Context" cell (spec §9: independent storage cell per thread of control)
together with the rest of the mutable world `W` (span records, ended flags,
instrument storage, …), kept abstract so frame properties quantify over it. -/
structure TState (S W : Type) where
  cur : Context S
  world : W
deriving Repr, DecidableEq

/-- Modelled from the spec: `Context::current()` — returns the `Context`
currently active for the calling thread of control (spec §4.1); reads the
thread-local cell, no state change. -/
def TState.current (st : TState S W) : Context S := st.cur

/-- Modelled from the spec: `Context::current_with_span(span)` — a new
immutable `Context` derived from the given current one with its active-span
slot replaced; mutates nothing (spec §4.1).  The reading of the thread-local
cell is made explicit at each call site via `TState.current`. -/
def Context.current_with_span (span : S) (cx : Context S) : Context S :=
  { cx with active := some span }

/-- Modelled from the spec: `context.attach()` — makes `cx` the current
`Context` for the calling thread of control and returns a `ContextGuard`
capturing the `Context` that was current immediately before the call
(spec §4.1, §9: swap the cell, wrap the old value as a guard). -/
def Context.attach (cx : Context S) (st : TState S W) : ContextGuard S × TState S W :=
  (⟨st.cur⟩, { st with cur := cx })

/-- Modelled from the spec: guard release (explicit call or end-of-scope
drop) — restores "current" to the captured prior `Context`, regardless of
what is current at release time (spec §4.1, §9: swap the cell back to the
held value). -/
def ContextGuard.release (g : ContextGuard S) (st : TState S W) : TState S W :=
  { st with cur := g.prior }

/-- A sequence of context operations performed in strict nesting order on one
thread of control: arbitrary non-context work on the world, sequencing, and a
properly nested attach/…/release pair (`scoped cx p` = attach `cx`, run `p`,
release that attach's guard). -/
inductive CtxProg (S W : Type) where
  | work (op : W → W)
  | seq (p q : CtxProg S W)
  | scoped (cx : Context S) (p : CtxProg S W)

/-- Run a strictly nested context program against a thread state, using the
attach/release primitives exactly as a lexically scoped guard does. -/
def CtxProg.exec : CtxProg S W → TState S W → TState S W
  | .work op, st => { st with world := op st.world }
  | .seq p q, st => q.exec (p.exec st)
  | .scoped cx p, st =>
      let (g, st1) := Context.attach cx st
      let st2 := p.exec st1
      g.release st2

/-- `SpanBuilder` (`src/api/trace/tracer.rs`): builder-pattern span
configuration; every field except `name` is optional.  `SystemTime` is
embedded as `Nat` (an opaque instant). -/
structure SpanBuilder where
  parent_context : Option SpanContext
  trace_id : Option TraceId
  span_id : Option SpanId
  span_kind : Option SpanKind
  name : String
  start_time : Option Nat
  end_time : Option Nat
  attributes : Option (List KeyValue)
  message_events : Option (List Event)
  links : Option (List Link)
  status_code : Option StatusCode
  status_message : Option String
  sampling_result : Option SamplingResult
deriving Repr, DecidableEq

/-- `SpanBuilder::from_name` (`src/api/trace/tracer.rs:431`): a builder with
the given name and every other field `None`. -/
def SpanBuilder.from_name (name : String) : SpanBuilder :=
  { parent_context := none
    trace_id := none
    span_id := none
    span_kind := none
    name := name
    start_time := none
    end_time := none
    attributes := none
    message_events := none
    links := none
    status_code := none
    status_message := none
    sampling_result := none }

/-- `SpanBuilder::with_parent` (`src/api/trace/tracer.rs:450`). -/
def SpanBuilder.with_parent (b : SpanBuilder) (parent_context : SpanContext) : SpanBuilder :=
  { b with parent_context := some parent_context }

/-- `SpanBuilder::with_trace_id` (`src/api/trace/tracer.rs:458`). -/
def SpanBuilder.with_trace_id (b : SpanBuilder) (trace_id : TraceId) : SpanBuilder :=
  { b with trace_id := some trace_id }

/-- `SpanBuilder::with_span_id` (`src/api/trace/tracer.rs:466`). -/
def SpanBuilder.with_span_id (b : SpanBuilder) (span_id : SpanId) : SpanBuilder :=
  { b with span_id := some span_id }

/-- `SpanBuilder::with_kind` (`src/api/trace/tracer.rs:474`). -/
def SpanBuilder.with_kind (b : SpanBuilder) (span_kind : SpanKind) : SpanBuilder :=
  { b with span_kind := some span_kind }

/-- `SpanBuilder::with_start_time` (`src/api/trace/tracer.rs:482`). -/
def SpanBuilder.with_start_time (b : SpanBuilder) (start_time : Nat) : SpanBuilder :=
  { b with start_time := some start_time }

/-- `SpanBuilder::with_end_time` (`src/api/trace/tracer.rs:490`). -/
def SpanBuilder.with_end_time (b : SpanBuilder) (end_time : Nat) : SpanBuilder :=
  { b with end_time := some end_time }

/-- `SpanBuilder::with_attributes` (`src/api/trace/tracer.rs:498`). -/
def SpanBuilder.with_attributes (b : SpanBuilder) (attributes : List KeyValue) : SpanBuilder :=
  { b with attributes := some attributes }

/-- `SpanBuilder::with_message_events` (`src/api/trace/tracer.rs:506`). -/
def SpanBuilder.with_message_events (b : SpanBuilder) (message_events : List Event) : SpanBuilder :=
  { b with message_events := some message_events }

/-- `SpanBuilder::with_links` (`src/api/trace/tracer.rs:514`). -/
def SpanBuilder.with_links (b : SpanBuilder) (links : List Link) : SpanBuilder :=
  { b with links := some links }

/-- `SpanBuilder::with_status_code` (`src/api/trace/tracer.rs:522`). -/
def SpanBuilder.with_status_code (b : SpanBuilder) (code : StatusCode) : SpanBuilder :=
  { b with status_code := some code }

/-- `SpanBuilder::with_status_message` (`src/api/trace/tracer.rs:530`). -/
def SpanBuilder.with_status_message (b : SpanBuilder) (message : String) : SpanBuilder :=
  { b with status_message := some message }

/-- `SpanBuilder::with_sampling_result` (`src/api/trace/tracer.rs:538`). -/
def SpanBuilder.with_sampling_result (b : SpanBuilder) (sampling_result : SamplingResult) : SpanBuilder :=
  { b with sampling_result := some sampling_result }

/-- The `Tracer` trait (`src/api/trace/tracer.rs:157`): its required
(abstract) methods become function-valued fields; an implementation is a
value of this structure.  `S` is the associated `Span` type.  The required
methods take `&self` and a `&Context`, so they are pure functions of the
given context — they cannot touch the thread-local cell. -/
structure Tracer (S : Type) where
  invalid : S
  start_from_context : String → Context S → S
  span_builder : String → SpanBuilder
  build_with_context : SpanBuilder → Context S → S

/-- Provided method `Tracer::start` (`src/api/trace/tracer.rs:188`):
`self.start_from_context(name, &Context::current())`. -/
def Tracer.start (t : Tracer S) (name : String) (st : TState S W) : S :=
  t.start_from_context name (TState.current st)

/-- Provided method `Tracer::build` (`src/api/trace/tracer.rs:223`):
`self.build_with_context(builder, &Context::current())`. -/
def Tracer.build (t : Tracer S) (builder : SpanBuilder) (st : TState S W) : S :=
  t.build_with_context builder (TState.current st)

/-- `SpanBuilder::start` (`src/api/trace/tracer.rs:546`):
`tracer.build(self)`. -/
def SpanBuilder.start (b : SpanBuilder) (t : Tracer S) (st : TState S W) : S :=
  t.build b st

/-- Provided method `Tracer::mark_span_as_active`
(`src/api/trace/tracer.rs:260`):
`let cx = Context::current_with_span(span); cx.attach()`. -/
def Tracer.mark_span_as_active (_t : Tracer S) (span : S) (st : TState S W) :
    ContextGuard S × TState S W :=
  let cx := Context.current_with_span span (TState.current st)
  cx.attach st

/-- The spec's description of `mark_span_as_active` (§4.3), written from the
spec's words for the refinement comparison: "convenience =
`Context.current_with_span(span).attach()`; returns the ContextGuard". -/
def markSpanAsActiveSpec (span : S) (st : TState S W) : ContextGuard S × TState S W :=
  Context.attach (Context.current_with_span span (TState.current st)) st

/-- Modelled from the spec: the current `Context`'s active-span accessor
(`TraceContextExt::span`, not among the sources at hand) — yields the active
span, or the invalid sentinel span when the slot is empty (spec §4.1, §4.3). -/
def Context.active_span (cx : Context S) (inv : S) : S :=
  match cx.active with
  | some s => s
  | none => inv

/-- Provided method `Tracer::get_active_span`
(`src/api/trace/tracer.rs:287`): `f(Context::current().span())`.  The
closure receives the span by shared reference and may itself act on the
world (e.g. add an event through the span handle), so it is embedded as a
state transformer. -/
def Tracer.get_active_span (t : Tracer S) (f : S → TState S W → T × TState S W)
    (st : TState S W) : T × TState S W :=
  f (Context.active_span (TState.current st) t.invalid) st

/-- Provided method `Tracer::in_span` (`src/api/trace/tracer.rs:322`):
`let span = self.start(name); let cx = Context::current_with_span(span);
let _guard = cx.clone().attach(); f(cx)` — the guard is dropped (released)
when `in_span` returns, on every exit path out of `f`. -/
def Tracer.in_span (t : Tracer S) (name : String)
    (f : Context S → TState S W → T × TState S W) (st : TState S W) :
    T × TState S W :=
  let span := t.start name st
  let cx := Context.current_with_span span (TState.current st)
  let (g, st1) := cx.attach st
  let (r, st2) := f cx st1
  (r, g.release st2)

/-- Provided method `Tracer::with_span` (`src/api/trace/tracer.rs:363`):
`let cx = Context::current_with_span(span); let _guard = cx.clone().attach();
f(cx)` — the guard is dropped (released) when `with_span` returns. -/
def Tracer.with_span (_t : Tracer S) (span : S)
    (f : Context S → TState S W → T × TState S W) (st : TState S W) :
    T × TState S W :=
  let cx := Context.current_with_span span (TState.current st)
  let (g, st1) := cx.attach st
  let (r, st2) := f cx st1
  (r, g.release st2)

/-- External identifier generator interface (spec §6): `new_trace_id()`,
`new_span_id()`.  Consulted as an opaque generator; its next outputs are the
two fields. -/
structure IdGenerator where
  new_trace_id : TraceId
  new_span_id : SpanId
deriving Repr, DecidableEq

/-- External sampler interface (spec §6): `should_sample(parent, trace_id,
name, kind, attributes, links) -> SamplingResult`; an opaque policy. -/
structure Sampler where
  should_sample : Option SpanContext → TraceId → String → Option SpanKind →
    List KeyValue → List Link → SamplingResult

/-- Modelled from the spec: the SDK span record (the SDK `Span`
implementation is not among the sources at hand) — span state per spec §3:
`SpanContext`, parent id, name, kind, timestamps, attributes, and the
started/ended lifecycle flag. -/
structure SpanData where
  span_context : SpanContext
  parent_span_id : SpanId
  name : String
  span_kind : SpanKind
  start_time : Nat
  end_time : Option Nat
  attributes : List KeyValue
  ended : Bool
deriving Repr, DecidableEq

/-- Modelled from the spec: the invalid sentinel span (spec §7: all-zero
identifiers, not sampled), returned where no real span is available. -/
def SpanData.invalid : SpanData :=
  { span_context :=
      { trace_id := 0, span_id := 0, trace_flags := 0, trace_state := [], is_remote := false }
    parent_span_id := 0
    name := ""
    span_kind := SpanKind.internal
    start_time := 0
    end_time := none
    attributes := []
    ended := false }

/-- Modelled from the spec: parent resolution (spec §4.2, the SDK tracer's
`build_with_context` is not among the sources at hand):
1. an explicit `parent_context` wins, full stop;
2. else explicit `trace_id`/`span_id` overrides synthesize a parent;
3. else the ambient Context's active span's `SpanContext`, when valid, is
   the parent;
4. else no parent is resolved (the new span is a root). -/
def resolveParent (b : SpanBuilder) (cx : Context SpanData) : Option SpanContext :=
  match b.parent_context with
  | some p => some p
  | none =>
    if b.trace_id.isSome || b.span_id.isSome then
      some
        { trace_id := b.trace_id.getD 0
          span_id := b.span_id.getD 0
          trace_flags := 0
          trace_state := []
          is_remote := false }
    else
      match cx.active with
      | some s => if s.span_context.is_valid then some s.span_context else none
      | none => none

/-- Modelled from the spec: SDK span construction (spec §4.2, the SDK
tracer's `build_with_context` is not among the sources at hand).  The parent
is resolved; the new span's `trace_id` is the parent's, or freshly generated
by the external `IdGenerator` for a root; a fresh `span_id` is always
generated; `trace_state` is inherited from the resolved parent unless the
builder explicitly overrides it (via its `sampling_result`); the sampler is
consulted unless the builder carries an explicit `sampling_result`, and the
decision determines the sampled flag; `is_remote` is never set by local
construction. -/
def sdkBuildWithContext (gen : IdGenerator) (sampler : Sampler)
    (b : SpanBuilder) (cx : Context SpanData) : SpanData :=
  let parent := resolveParent b cx
  let trace_id :=
    match parent with
    | some p => p.trace_id
    | none => gen.new_trace_id
  let sampling :=
    match b.sampling_result with
    | some r => r
    | none =>
        sampler.should_sample parent trace_id b.name b.span_kind
          (b.attributes.getD []) (b.links.getD [])
  let trace_state :=
    match b.sampling_result with
    | some r => r.trace_state
    | none =>
        match parent with
        | some p => p.trace_state
        | none => []
  { span_context :=
      { trace_id := trace_id
        span_id := gen.new_span_id
        trace_flags := if sampling.decision = SamplingDecision.record_and_sample then 1 else 0
        trace_state := trace_state
        is_remote := false }
    parent_span_id :=
      match parent with
      | some p => p.span_id
      | none => 0
    name := b.name
    span_kind := b.span_kind.getD SpanKind.internal
    start_time := b.start_time.getD 0
    end_time := b.end_time
    attributes := b.attributes.getD [] ++ sampling.attributes_to_add
    ended := false }

/-- Modelled from the spec: the SDK tracer (spec §4.2–4.3) — `span_builder`
makes a default builder from the name, `build_with_context` performs parent
resolution and construction, and `start_from_context` is shorthand span
creation with default builder values ("equivalent to
`span_builder(name).start(...)` with no overrides"). -/
def sdkTracer (gen : IdGenerator) (sampler : Sampler) : Tracer SpanData :=
  { invalid := SpanData.invalid
    start_from_context := fun name cx =>
      sdkBuildWithContext gen sampler (SpanBuilder.from_name name) cx
    span_builder := SpanBuilder.from_name
    build_with_context := sdkBuildWithContext gen sampler }

/-- A metric value (`api::metrics::Number`): an opaque raw payload. -/
abbrev Number := Nat

/-- The `BoundSyncInstrument` trait (`src/api/metrics/sdk_api.rs:50`): its
required method `record_one_with_context` becomes a function-valued field.
Recording may act on the whole thread state, so it is a state transformer. -/
structure BoundSyncInstrument (S W : Type) where
  record_one_with_context : Context S → Number → TState S W → TState S W

/-- Provided method `BoundSyncInstrument::record_one`
(`src/api/metrics/sdk_api.rs:52`):
`self.record_one_with_context(&Context::current(), number)`. -/
def BoundSyncInstrument.record_one (i : BoundSyncInstrument S W) (number : Number)
    (st : TState S W) : TState S W :=
  i.record_one_with_context (TState.current st) number st

/-- The `SyncInstrument` trait (`src/api/metrics/sdk_api.rs:36`): required
methods `bind` and `record_one_with_context` become function-valued fields. -/
structure SyncInstrument (S W : Type) where
  bind : List KeyValue → BoundSyncInstrument S W
  record_one_with_context : Context S → Number → List KeyValue → TState S W → TState S W

/-- Provided method `SyncInstrument::record_one`
(`src/api/metrics/sdk_api.rs:41`):
`self.record_one_with_context(&Context::current(), number, labels)`. -/
def SyncInstrument.record_one (i : SyncInstrument S W) (number : Number)
    (labels : List KeyValue) (st : TState S W) : TState S W :=
  i.record_one_with_context (TState.current st) number labels st

/-- The claim's reading of the context-free recording entry points, written
from its words for the refinement comparison: the same call with
`Context::current()` supplied as the context argument. -/
def recordOneSpec (i : SyncInstrument S W) (number : Number) (labels : List KeyValue)
    (st : TState S W) : TState S W :=
  i.record_one_with_context (TState.current st) number labels st

/-- The claim's reading of `BoundSyncInstrument::record_one`, written from
its words for the refinement comparison. -/
def boundRecordOneSpec (i : BoundSyncInstrument S W) (number : Number)
    (st : TState S W) : TState S W :=
  i.record_one_with_context (TState.current st) number st

/-- A small concrete tracer over `Nat` spans, used to instantiate
hypothesis-bearing theorems at concrete inputs. -/
def natTracer : Tracer Nat :=
  { invalid := 0
    start_from_context := fun _ _ => 1
    span_builder := SpanBuilder.from_name
    build_with_context := fun _ _ => 1 }

/-- Claim C1: for every sequence of nested attach/release pairs performed in
strict nesting order on one thread of control, the current Context after the
outermost guard's release equals the current Context before the outermost
attach; and a guard's release restores the current Context to exactly the
Context that was current immediately before that guard's attach, regardless
of the state at release time. -/
theorem nested_attach_release_restores_current
    (cx : Context S) (p : CtxProg S W) (st st2 : TState S W) :
    (CtxProg.exec (CtxProg.scoped cx p) st).cur = st.cur
    ∧ (ContextGuard.release (Context.attach cx st).1 st2).cur = st.cur := by
  exact ⟨rfl, rfl⟩

/-- Claim C2: `mark_span_as_active(s)` performs exactly
`Context::current_with_span(s).attach()` and returns the resulting
`ContextGuard`; it makes no other state change (the world is untouched, the
new current Context is the derived one, the guard captures the prior
current). -/
theorem mark_span_as_active_is_current_with_span_attach
    (t : Tracer S) (span : S) (st : TState S W) :
    Tracer.mark_span_as_active t span st = markSpanAsActiveSpec span st
    ∧ ((Tracer.mark_span_as_active t span st).2).cur
        = Context.current_with_span span (TState.current st)
    ∧ ((Tracer.mark_span_as_active t span st).2).world = st.world
    ∧ ((Tracer.mark_span_as_active t span st).1).prior = TState.current st := by
  exact ⟨rfl, rfl, rfl, rfl⟩

/-- Claim C3: for every `SpanBuilder` `b` and tracer `t`, `b.start(t)`
returns the same span as `t.build(b)` (both delegate to
`build_with_context` at the current Context, with no state change). -/
theorem spanBuilder_start_eq_tracer_build
    (b : SpanBuilder) (t : Tracer S) (st : TState S W) :
    SpanBuilder.start b t st = Tracer.build t b st
    ∧ SpanBuilder.start b t st = t.build_with_context b (TState.current st) := by
  exact ⟨rfl, rfl⟩

/-- Claim C4: `t.start(n)` equals `t.start_from_context(n, Context::current())`
and `t.build(b)` equals `t.build_with_context(b, Context::current())` for
every tracer; and for the SDK tracer, `start(name)` equals
`span_builder(name).start(tracer)` with no overrides. -/
theorem start_build_use_current_context
    (t : Tracer S) (name : String) (b : SpanBuilder) (st : TState S W)
    (gen : IdGenerator) (sampler : Sampler) (sst : TState SpanData V) :
    Tracer.start t name st = t.start_from_context name (TState.current st)
    ∧ Tracer.build t b st = t.build_with_context b (TState.current st)
    ∧ Tracer.start (sdkTracer gen sampler) name sst
        = SpanBuilder.start ((sdkTracer gen sampler).span_builder name)
            (sdkTracer gen sampler) sst := by
  exact ⟨rfl, rfl, rfl⟩

/-- Claim C5: `in_span(name, f)` and `with_span(span, f)` attach
`Context::current_with_span(span)` for exactly the dynamic extent of invoking
`f` with that same Context (`f` runs from a state whose current Context is
that Context and whose world is unchanged), the call returns `f`'s result,
and the guard is released on every exit path, so the current Context after
the call equals the current Context before the call. -/
theorem in_span_with_span_scoped_extent
    (t : Tracer S) (name : String) (span : S)
    (f g : Context S → TState S W → T × TState S W) (st : TState S W) :
    ((Tracer.with_span t span f st).2).cur = st.cur
    ∧ (Tracer.with_span t span f st).1
        = (f (Context.current_with_span span st.cur)
            ⟨Context.current_with_span span st.cur, st.world⟩).1
    ∧ ((Tracer.in_span t name g st).2).cur = st.cur
    ∧ (Tracer.in_span t name g st).1
        = (g (Context.current_with_span (Tracer.start t name st) st.cur)
            ⟨Context.current_with_span (Tracer.start t name st) st.cur, st.world⟩).1 := by
  exact ⟨rfl, rfl, rfl, rfl⟩

/-- Claim C6: `get_active_span(f)` returns `f` applied to the current
Context's active span (the tracer's invalid sentinel span when the slot is
empty), and the operation itself changes nothing: whenever `f` leaves the
state unchanged, so does the whole call. -/
theorem get_active_span_readonly
    (t : Tracer S) (f : S → TState S W → T × TState S W) (st : TState S W)
    (s : S) :
    Tracer.get_active_span t f st = f (Context.active_span st.cur t.invalid) st
    ∧ (st.cur.active = some s → Tracer.get_active_span t f st = f s st)
    ∧ (st.cur.active = none → Tracer.get_active_span t f st = f t.invalid st)
    ∧ ((∀ x st0, (f x st0).2 = st0) →
        ((Tracer.get_active_span t f st).2) = st) := by
  refine ⟨rfl, ?_, ?_, ?_⟩
  · intro h
    simp [Tracer.get_active_span, Context.active_span, TState.current, h]
  · intro h
    simp [Tracer.get_active_span, Context.active_span, TState.current, h]
  · intro h
    simp [Tracer.get_active_span, h]

/-- Witness for C6 at a concrete input: with span `5` active and a closure
that reads the span and leaves the state unchanged, the call returns `f 5`
and the state is unchanged. -/
theorem get_active_span_readonly_witness :
    Tracer.get_active_span natTracer (fun s st => (s + 1, st))
        (⟨⟨some 5⟩, 0⟩ : TState Nat Nat) = (6, ⟨⟨some 5⟩, 0⟩)
    ∧ ((Tracer.get_active_span natTracer (fun s st => (s + 1, st))
        (⟨⟨some 5⟩, 0⟩ : TState Nat Nat)).2) = ⟨⟨some 5⟩, 0⟩ := by
  have h := get_active_span_readonly (W := Nat) (T := Nat) natTracer
    (fun s st => (s + 1, st)) ⟨⟨some 5⟩, 0⟩ 5
  exact ⟨h.2.1 rfl, h.2.2.2 (fun x st0 => rfl)⟩

/-- Claim C7: `in_span` and `with_span` never invoke the span's end
operation: the world — which carries every span's recorded data and
ended/not-ended flag — after the call is exactly what `f` left it as; the
wrapper itself only manipulates the current-Context cell. -/
theorem in_span_with_span_preserve_world
    (t : Tracer S) (name : String) (span : S)
    (f g : Context S → TState S W → T × TState S W) (st : TState S W) :
    ((Tracer.with_span t span f st).2).world
        = ((f (Context.current_with_span span st.cur)
            ⟨Context.current_with_span span st.cur, st.world⟩).2).world
    ∧ ((Tracer.in_span t name g st).2).world
        = ((g (Context.current_with_span (Tracer.start t name st) st.cur)
            ⟨Context.current_with_span (Tracer.start t name st) st.cur, st.world⟩).2).world := by
  exact ⟨rfl, rfl⟩

/-- Claim C8: if a parent `SpanContext` is resolved (explicitly or from the
ambient Context), the new span's `trace_id` equals the parent's and its
`trace_state` equals the parent's unless the builder explicitly overrides it
(via its `sampling_result`); if no parent is resolved, the root span's
`trace_id` is the freshly generated one from the `IdGenerator`. -/
theorem span_parent_trace_id_inheritance
    (gen : IdGenerator) (sampler : Sampler) (b : SpanBuilder)
    (cx : Context SpanData) :
    (∀ p, resolveParent b cx = some p →
      (sdkBuildWithContext gen sampler b cx).span_context.trace_id = p.trace_id
      ∧ (b.sampling_result = none →
          (sdkBuildWithContext gen sampler b cx).span_context.trace_state
            = p.trace_state))
    ∧ (resolveParent b cx = none →
        (sdkBuildWithContext gen sampler b cx).span_context.trace_id
          = gen.new_trace_id) := by
  constructor
  · intro p hp
    constructor
    · simp [sdkBuildWithContext, hp]
    · intro hs
      simp [sdkBuildWithContext, hp, hs]
  · intro hp
    simp [sdkBuildWithContext, hp]

/-- A concrete sampler for witnesses: always record-and-sample, no added
attributes, empty trace state. -/
def wSampler : Sampler :=
  ⟨fun _ _ _ _ _ _ => ⟨SamplingDecision.record_and_sample, [], []⟩⟩

/-- A concrete parent `SpanContext` for witnesses. -/
def wParent : SpanContext :=
  { trace_id := 5, span_id := 6, trace_flags := 1
    trace_state := [("a", "b")], is_remote := false }

/-- Witness for C8 at concrete inputs: with an explicit parent
(trace_id 5, trace_state `[("a","b")]`) the child inherits both; with no
parent and no overrides the root gets the generator's fresh trace_id 77. -/
theorem span_parent_trace_id_inheritance_witness :
    (sdkBuildWithContext ⟨77, 88⟩ wSampler
        ((SpanBuilder.from_name "bar").with_parent wParent)
        (Context.empty SpanData)).span_context.trace_id = 5
    ∧ (sdkBuildWithContext ⟨77, 88⟩ wSampler
        ((SpanBuilder.from_name "bar").with_parent wParent)
        (Context.empty SpanData)).span_context.trace_state = [("a", "b")]
    ∧ (sdkBuildWithContext ⟨77, 88⟩ wSampler (SpanBuilder.from_name "root")
        (Context.empty SpanData)).span_context.trace_id = 77 := by
  have h1 := span_parent_trace_id_inheritance ⟨77, 88⟩ wSampler
    ((SpanBuilder.from_name "bar").with_parent wParent) (Context.empty SpanData)
  have h2 := span_parent_trace_id_inheritance ⟨77, 88⟩ wSampler
    (SpanBuilder.from_name "root") (Context.empty SpanData)
  exact ⟨(h1.1 wParent rfl).1, (h1.1 wParent rfl).2 rfl, h2.2 rfl⟩

/-- Claim C9: each `with_*` method returns a builder equal to the receiver in
every field except the one it names, which becomes `some` of the given value;
`SpanBuilder::from_name(n)` yields a builder named `n` with every other field
`none`. -/
theorem spanBuilder_with_methods_frame
    (b : SpanBuilder) (p : SpanContext) (tid : TraceId) (sid : SpanId)
    (k : SpanKind) (ts te : Nat) (attrs : List KeyValue) (evs : List Event)
    (ls : List Link) (c : StatusCode) (m : String) (r : SamplingResult)
    (n : String) :
    SpanBuilder.from_name n
      = ⟨none, none, none, none, n, none, none, none, none, none, none, none, none⟩
    ∧ b.with_parent p
      = ⟨some p, b.trace_id, b.span_id, b.span_kind, b.name, b.start_time,
          b.end_time, b.attributes, b.message_events, b.links, b.status_code,
          b.status_message, b.sampling_result⟩
    ∧ b.with_trace_id tid
      = ⟨b.parent_context, some tid, b.span_id, b.span_kind, b.name,
          b.start_time, b.end_time, b.attributes, b.message_events, b.links,
          b.status_code, b.status_message, b.sampling_result⟩
    ∧ b.with_span_id sid
      = ⟨b.parent_context, b.trace_id, some sid, b.span_kind, b.name,
          b.start_time, b.end_time, b.attributes, b.message_events, b.links,
          b.status_code, b.status_message, b.sampling_result⟩
    ∧ b.with_kind k
      = ⟨b.parent_context, b.trace_id, b.span_id, some k, b.name,
          b.start_time, b.end_time, b.attributes, b.message_events, b.links,
          b.status_code, b.status_message, b.sampling_result⟩
    ∧ b.with_start_time ts
      = ⟨b.parent_context, b.trace_id, b.span_id, b.span_kind, b.name,
          some ts, b.end_time, b.attributes, b.message_events, b.links,
          b.status_code, b.status_message, b.sampling_result⟩
    ∧ b.with_end_time te
      = ⟨b.parent_context, b.trace_id, b.span_id, b.span_kind, b.name,
          b.start_time, some te, b.attributes, b.message_events, b.links,
          b.status_code, b.status_message, b.sampling_result⟩
    ∧ b.with_attributes attrs
      = ⟨b.parent_context, b.trace_id, b.span_id, b.span_kind, b.name,
          b.start_time, b.end_time, some attrs, b.message_events, b.links,
          b.status_code, b.status_message, b.sampling_result⟩
    ∧ b.with_message_events evs
      = ⟨b.parent_context, b.trace_id, b.span_id, b.span_kind, b.name,
          b.start_time, b.end_time, b.attributes, some evs, b.links,
          b.status_code, b.status_message, b.sampling_result⟩
    ∧ b.with_links ls
      = ⟨b.parent_context, b.trace_id, b.span_id, b.span_kind, b.name,
          b.start_time, b.end_time, b.attributes, b.message_events, some ls,
          b.status_code, b.status_message, b.sampling_result⟩
    ∧ b.with_status_code c
      = ⟨b.parent_context, b.trace_id, b.span_id, b.span_kind, b.name,
          b.start_time, b.end_time, b.attributes, b.message_events, b.links,
          some c, b.status_message, b.sampling_result⟩
    ∧ b.with_status_message m
      = ⟨b.parent_context, b.trace_id, b.span_id, b.span_kind, b.name,
          b.start_time, b.end_time, b.attributes, b.message_events, b.links,
          b.status_code, some m, b.sampling_result⟩
    ∧ b.with_sampling_result r
      = ⟨b.parent_context, b.trace_id, b.span_id, b.span_kind, b.name,
          b.start_time, b.end_time, b.attributes, b.message_events, b.links,
          b.status_code, b.status_message, some r⟩ := by
  exact ⟨rfl, rfl, rfl, rfl, rfl, rfl, rfl, rfl, rfl, rfl, rfl, rfl, rfl⟩

/-- Claim C10: for `SyncInstrument` and `BoundSyncInstrument`, the
context-free `record_one(...)` is exactly `record_one_with_context` invoked
with `Context::current()`: the only difference is which Context is
supplied. -/
theorem record_one_uses_current_context
    (i : SyncInstrument S W) (j : BoundSyncInstrument S W) (number : Number)
    (labels : List KeyValue) (st : TState S W) :
    SyncInstrument.record_one i number labels st = recordOneSpec i number labels st
    ∧ SyncInstrument.record_one i number labels st
        = i.record_one_with_context (TState.current st) number labels st
    ∧ BoundSyncInstrument.record_one j number st = boundRecordOneSpec j number st
    ∧ BoundSyncInstrument.record_one j number st
        = j.record_one_with_context (TState.current st) number st := by
  exact ⟨rfl, rfl, rfl, rfl⟩
